import Mathlib

/-!
Verification of the AI_Flashcards study-session engine.

Shallow embedding of `src/frontend/src/session.ts` (session engine) and
`src/frontend/src/sessionStats.ts` (scoring module).  JavaScript
`Set<string>` is modelled as a duplicate-free `List String` in insertion
order; `Map<string, boolean>` is modelled as an insertion-ordered
association list `List (String × Bool)` whose keys are kept distinct by
the `set` operation, so that `Map.size` is the list length.  All
operations are translated directly from the TypeScript source.
-/

/-- A flashcard as consumed by the engine (`Card` in `api.ts`): a storage
`id`, a globally unique `uid`, and the two faces. -/
structure Card where
  id : String
  uid : String
  front : String
  back : String
  deriving DecidableEq, Repr

/-- Model of JavaScript `Set.has`: the membership test. -/
def jsSetHas (s : List String) (k : String) : Bool :=
  decide (k ∈ s)

/-- Model of JavaScript `Set.add`: a set never holds duplicates, so adding a
present element is a no-op; a new element is appended (JS sets preserve
insertion order). -/
def jsSetAdd (s : List String) (k : String) : List String :=
  if k ∈ s then s else s ++ [k]

/-- Model of JavaScript `Set.delete`: removes the element; a set is
duplicate-free, so this removes every occurrence. -/
def jsSetDelete (s : List String) (k : String) : List String :=
  s.filter (fun x => x ≠ k)

/-- Model of JavaScript `Map.set`: overwrites the value in place when the key
is present, appends a new entry otherwise. -/
def jsMapSet (m : List (String × Bool)) (k : String) (v : Bool) : List (String × Bool) :=
  match m with
  | [] => [(k, v)]
  | (k0, v0) :: rest => if k0 = k then (k, v) :: rest else (k0, v0) :: jsMapSet rest k v

/-- Model of JavaScript `Map.get`: the value stored at the key, `none` when
the key is absent. -/
def jsMapGet (m : List (String × Bool)) (k : String) : Option Bool :=
  match m with
  | [] => none
  | (k0, v0) :: rest => if k0 = k then some v0 else jsMapGet rest k

/-- `SessionState` from `session.ts`. -/
structure SessionState where
  cycle : Nat
  currentCardIndex : Nat
  cycleQueue : List Card
  incorrectCardIds : List String
  cycle1Answers : List (String × Bool)
  deriving DecidableEq, Repr

/-- `buildCycleQueue` from `session.ts`: cycle 1 returns a copy of all cards
in order; later cycles filter by membership of `card.id` in
`incorrectCardIds` (note: the source tests `card.id`, not `card.uid`). -/
def buildCycleQueue (allCards : List Card) (incorrectCardIds : List String)
    (cycle : Nat) : List Card :=
  if cycle = 1 then
    allCards
  else
    allCards.filter (fun card => jsSetHas incorrectCardIds card.id)

/-- `initSession` from `session.ts`.  The source takes only the deck's card
list; callers in `App.tsx` also pass a `maxCycles` option, which this
function neither accepts nor stores. -/
def initSession (deckCards : List Card) : SessionState :=
  { cycle := 1
    currentCardIndex := 0
    cycleQueue := buildCycleQueue deckCards [] 1
    incorrectCardIds := []
    cycle1Answers := [] }

/-- `applyAnswer` from `session.ts`. -/
def applyAnswer (state : SessionState) (cardId : String) (wasCorrect : Bool) :
    SessionState :=
  let newIncorrectIds :=
    if !wasCorrect then jsSetAdd state.incorrectCardIds cardId
    else jsSetDelete state.incorrectCardIds cardId
  let newCycle1Answers :=
    if state.cycle = 1 then jsMapSet state.cycle1Answers cardId wasCorrect
    else state.cycle1Answers
  let nextIndex := state.currentCardIndex + 1
  { state with
      currentCardIndex := nextIndex
      incorrectCardIds := newIncorrectIds
      cycle1Answers := newCycle1Answers }

/-- Result record of `shouldAdvanceCycle`. -/
structure AdvanceResult where
  shouldAdvance : Bool
  shouldEnd : Bool
  deriving DecidableEq, Repr

/-- `shouldAdvanceCycle` from `session.ts`.  The ceiling test in the source
is the hardcoded `state.cycle >= 4`; the state carries no `maxCycles`. -/
def shouldAdvanceCycle (state : SessionState) (_allCards : List Card) :
    AdvanceResult :=
  if state.currentCardIndex < state.cycleQueue.length then
    { shouldAdvance := false, shouldEnd := false }
  else if state.incorrectCardIds.length = 0 then
    { shouldAdvance := false, shouldEnd := true }
  else if 4 ≤ state.cycle then
    { shouldAdvance := false, shouldEnd := true }
  else
    { shouldAdvance := true, shouldEnd := false }

/-- `startNextCycle` from `session.ts`. -/
def startNextCycle (state : SessionState) (allCards : List Card) : SessionState :=
  { state with
      cycle := state.cycle + 1
      currentCardIndex := 0
      cycleQueue := buildCycleQueue allCards state.incorrectCardIds (state.cycle + 1) }

/-- A `{correct, total, percent}` score triple. -/
structure Score where
  correct : Nat
  total : Nat
  percent : Nat
  deriving DecidableEq, Repr

/-- Model of `Math.round((correct / total) * 100)` under exact rational
arithmetic: round-half-up of `100 * correct / total`, written in
natural-number arithmetic.  The JS source evaluates the ratio in IEEE
doubles, which deviates from exact round-half-up on boundary inputs such
as `correct = 23, total = 40`. -/
def mathRound100 (correct total : Nat) : Nat :=
  (200 * correct + total) / (2 * total)

/-- The cycle-1 correct-counter loop shared by `calculateCycle1Score` and
`computeScores`: `for (const wasCorrect of values()) if (wasCorrect)
correct++`. -/
def countCorrectValues (answers : List (String × Bool)) : Nat :=
  answers.foldl (fun correct entry => if entry.2 then correct + 1 else correct) 0

/-- `calculateCycle1Score` from `session.ts`. -/
def calculateCycle1Score (state : SessionState) : Score :=
  let total := state.cycle1Answers.length
  if total = 0 then
    { correct := 0, total := 0, percent := 0 }
  else
    let correct := countCorrectValues state.cycle1Answers
    { correct := correct, total := total, percent := mathRound100 correct total }

/-- The four card outcomes of `sessionStats.ts`. -/
inductive CardOutcome where
  | correctFirstTime
  | correctOnRetry
  | missed
  | unattempted
  deriving DecidableEq, Repr

/-- `classifyCardOutcome` from `sessionStats.ts`; keyed by `card.uid`. -/
def classifyCardOutcome (card : Card) (sessionState : SessionState) : CardOutcome :=
  match jsMapGet sessionState.cycle1Answers card.uid with
  | none => CardOutcome.unattempted
  | some true => CardOutcome.correctFirstTime
  | some false =>
      if jsSetHas sessionState.incorrectCardIds card.uid then CardOutcome.missed
      else CardOutcome.correctOnRetry

/-- The ever-correct counter loop of `computeScores`: an entry counts when it
is `true`, or `false` with its uid no longer in `incorrectCardIds`. -/
def countEverCorrect (answers : List (String × Bool))
    (incorrectCardIds : List String) : Nat :=
  answers.foldl
    (fun everCorrect entry =>
      if entry.2 then everCorrect + 1
      else if jsSetHas incorrectCardIds entry.1 then everCorrect
      else everCorrect + 1)
    0

/-- Result record of `computeScores`. -/
structure Scores where
  rightOnFirstTry : Score
  overallScore : Score
  deriving DecidableEq, Repr

/-- `computeScores` from `sessionStats.ts`. -/
def computeScores (sessionState : SessionState) : Scores :=
  let cycle1Attempted := sessionState.cycle1Answers.length
  let cycle1Correct := countCorrectValues sessionState.cycle1Answers
  let rightOnFirstTry : Score :=
    { correct := cycle1Correct
      total := cycle1Attempted
      percent := if cycle1Attempted = 0 then 0
                 else mathRound100 cycle1Correct cycle1Attempted }
  let attempted := sessionState.cycle1Answers.length
  let everCorrect := countEverCorrect sessionState.cycle1Answers
      sessionState.incorrectCardIds
  let overallScore : Score :=
    { correct := everCorrect
      total := attempted
      percent := if attempted = 0 then 0 else mathRound100 everCorrect attempted }
  { rightOnFirstTry := rightOnFirstTry, overallScore := overallScore }

/-- Modelled from the spec (§4.1 `buildCycleQueue`, else-branch): the
subsequence of `allCards` whose `uid` is in `incorrectIds` — the retry
queue the spec describes, for comparison with the source's `id`-keyed
filter. -/
def specRetryQueue (allCards : List Card) (incorrectIds : List String) : List Card :=
  allCards.filter (fun card => jsSetHas incorrectIds card.uid)

/-! ### Helper lemmas -/

theorem jsMapGet_jsMapSet_self (m : List (String × Bool)) (k : String) (v : Bool) :
    jsMapGet (jsMapSet m k v) k = some v := by
  induction m with
  | nil => simp [jsMapSet, jsMapGet]
  | cons hd tl ih =>
      obtain ⟨k0, v0⟩ := hd
      by_cases h : k0 = k
      · simp [jsMapSet, jsMapGet, h]
      · simp [jsMapSet, jsMapGet, h, ih]

theorem countCorrectValues_foldl (answers : List (String × Bool)) (n : Nat) :
    answers.foldl (fun correct entry => if entry.2 then correct + 1 else correct) n
      = n + (answers.filter (fun entry => entry.2)).length := by
  induction answers generalizing n with
  | nil => simp
  | cons hd tl ih =>
      by_cases h : hd.2 = true
      · simp only [List.foldl_cons, List.filter_cons, h, if_pos, ih, List.length_cons]
        ring
      · simp only [List.foldl_cons, List.filter_cons, h, if_neg, ih]
        simp [h]

theorem countCorrectValues_eq (answers : List (String × Bool)) :
    countCorrectValues answers = (answers.filter (fun entry => entry.2)).length := by
  simpa using countCorrectValues_foldl answers 0

theorem countEverCorrect_foldl (answers : List (String × Bool))
    (incorrectCardIds : List String) (n : Nat) :
    answers.foldl
        (fun everCorrect entry =>
          if entry.2 then everCorrect + 1
          else if jsSetHas incorrectCardIds entry.1 then everCorrect
          else everCorrect + 1)
        n
      = n + (answers.filter
          (fun entry => entry.2 || !(jsSetHas incorrectCardIds entry.1))).length := by
  induction answers generalizing n with
  | nil => simp
  | cons hd tl ih =>
      by_cases h : hd.2 = true
      · simp only [List.foldl_cons, List.filter_cons, h, if_pos, ih, List.length_cons]
        simp only [Bool.true_or, if_pos, List.length_cons]
        ring
      · by_cases h2 : jsSetHas incorrectCardIds hd.1 = true
        · simp only [List.foldl_cons, List.filter_cons, h, h2, ih]
          simp [h, h2]
        · simp only [List.foldl_cons, List.filter_cons, h, h2, ih]
          simp only [Bool.false_eq_true, if_neg, Bool.not_false]
          simp [h, h2]
          ring

theorem countEverCorrect_eq (answers : List (String × Bool))
    (incorrectCardIds : List String) :
    countEverCorrect answers incorrectCardIds
      = (answers.filter
          (fun entry => entry.2 || !(jsSetHas incorrectCardIds entry.1))).length := by
  simpa using countEverCorrect_foldl answers incorrectCardIds 0

theorem mathRound100_eq_floor (c t : Nat) (ht : t ≠ 0) :
    mathRound100 c t = ⌊(100 * c : ℚ) / t + 1 / 2⌋₊ := by
  have ht' : (t : ℚ) ≠ 0 := Nat.cast_ne_zero.mpr ht
  have h1 : (100 * c : ℚ) / t + 1 / 2 = ((200 * c + t : Nat) : ℚ) / ((2 * t : Nat) : ℚ) := by
    push_cast
    field_simp
    ring
  rw [mathRound100, h1, Nat.floor_div_eq_div]

/-! ### Claim C1 — ceiling termination and the configured maxCycles -/

/-- The two-card deck of the spec's ceiling scenario (`maxCycles = 3`, every
answer incorrect).  Cards use equal `id` and `uid` so that retry queues
are populated as intended. -/
def ceilingDeck : List Card :=
  [{ id := "c1", uid := "c1", front := "f1", back := "b1" },
   { id := "c2", uid := "c2", front := "f2", back := "b2" }]

/-- The state at the end of cycle 3 of the ceiling scenario: three full
cycles of `applyAnswer`/`startNextCycle`, both cards answered incorrectly
every time (answers submitted under the card uids, as `App.tsx` does). -/
def ceilingCycle3End : SessionState :=
  let s1 := applyAnswer (applyAnswer (initSession ceilingDeck) "c1" false) "c2" false
  let s2 := applyAnswer (applyAnswer (startNextCycle s1 ceilingDeck) "c1" false) "c2" false
  applyAnswer (applyAnswer (startNextCycle s2 ceilingDeck) "c1" false) "c2" false

/-- Claim C1: at the end of cycle 3 of the ceiling scenario the queue is
exhausted, incorrect cards remain, and the cycle number equals the
configured `maxCycles = 3`; the claim requires
`{shouldAdvance := false, shouldEnd := true}` here, but `shouldAdvanceCycle`
returns `{shouldAdvance := true, shouldEnd := false}` and the session runs a
fourth cycle: the ceiling is hardcoded at 4 and the configured bound is
ignored (`initSession` never receives or stores it). -/
theorem ceiling_ignores_configured_maxCycles :
    ceilingCycle3End.cycle = 3 ∧
    ceilingCycle3End.cycleQueue.length ≤ ceilingCycle3End.currentCardIndex ∧
    ceilingCycle3End.incorrectCardIds ≠ [] ∧
    shouldAdvanceCycle ceilingCycle3End ceilingDeck =
      { shouldAdvance := true, shouldEnd := false } := by
  refine ⟨rfl, by decide, by decide, rfl⟩

/-! ### Claim C2 — retry queues filter by `id`, not `uid` -/

/-- A card whose storage `id` and unique `uid` differ. -/
def mismatchCard : Card :=
  { id := "card-1", uid := "uid-1", front := "f", back := "b" }

/-- Claim C2: with `incorrectIds = {"uid-1"}` (the uid recorded by
`applyAnswer`, which `App.tsx` calls with `currentCard.uid`),
`buildCycleQueue` at cycle 2 returns the empty queue because the source
filters on `card.id`; the claim requires the uid-keyed subsequence, which
is the whole one-card list. -/
theorem buildCycleQueue_filters_by_id_not_uid :
    buildCycleQueue [mismatchCard] ["uid-1"] 2 = [] ∧
    specRetryQueue [mismatchCard] ["uid-1"] = [mismatchCard] := by
  refine ⟨by decide, by decide⟩

/-! ### Claim C3 — cycle-1 answers: last write wins, not first -/

/-- A cycle-1 state that already records card `"c"` as answered correctly. -/
def overwriteState : SessionState :=
  { cycle := 1, currentCardIndex := 0, cycleQueue := [],
    incorrectCardIds := [], cycle1Answers := [("c", true)] }

/-- Claim C3, counterexample: `applyAnswer` on a cycle-1 state with an
existing `cycle1Answers` entry for the card does not preserve the entry:
the recorded `true` is overwritten to `false` (JS `Map.set` overwrites). -/
theorem cycle1Answers_entry_overwritten :
    jsMapGet overwriteState.cycle1Answers "c" = some true ∧
    jsMapGet (applyAnswer overwriteState "c" false).cycle1Answers "c" = some false := by
  refine ⟨rfl, by decide⟩

/-- Claim C3, amended: while `cycle = 1`, `applyAnswer` records `wasCorrect`
unconditionally — the last write wins, overwriting any existing entry;
when `cycle ≠ 1` the `cycle1Answers` map is left unchanged, so entries
never change once the session has moved past cycle 1. -/
theorem applyAnswer_cycle1_last_write_wins (s : SessionState) (cardId : String)
    (wasCorrect : Bool) :
    (s.cycle = 1 →
      jsMapGet (applyAnswer s cardId wasCorrect).cycle1Answers cardId = some wasCorrect) ∧
    (s.cycle ≠ 1 →
      (applyAnswer s cardId wasCorrect).cycle1Answers = s.cycle1Answers) := by
  constructor
  · intro h
    simp [applyAnswer, h, jsMapGet_jsMapSet_self]
  · intro h
    simp [applyAnswer, h]

/-- Witness for the amended claim C3 at a concrete state. -/
theorem applyAnswer_cycle1_last_write_wins_witness :
    jsMapGet (applyAnswer overwriteState "c" false).cycle1Answers "c" = some false :=
  (applyAnswer_cycle1_last_write_wins overwriteState "c" false).1 (by decide)

/-! ### Claim C4 — the three-way case analysis of `shouldAdvanceCycle` -/

/-- Claim C4: `shouldAdvanceCycle` returns `{false, false}` while the queue
is not exhausted; on an exhausted queue with no outstanding incorrect
cards it returns `{false, true}` regardless of the cycle number (early
termination); and it never returns `shouldAdvance` and `shouldEnd` both
true. -/
theorem shouldAdvanceCycle_cases (s : SessionState) (allCards : List Card) :
    (s.currentCardIndex < s.cycleQueue.length →
      shouldAdvanceCycle s allCards = { shouldAdvance := false, shouldEnd := false }) ∧
    (s.cycleQueue.length ≤ s.currentCardIndex → s.incorrectCardIds = [] →
      shouldAdvanceCycle s allCards = { shouldAdvance := false, shouldEnd := true }) ∧
    ¬((shouldAdvanceCycle s allCards).shouldAdvance = true ∧
      (shouldAdvanceCycle s allCards).shouldEnd = true) := by
  unfold shouldAdvanceCycle
  refine ⟨?_, ?_, ?_⟩
  · intro h
    simp [h]
  · intro h1 h2
    rw [if_neg (by omega), if_pos (by simp [h2])]
  · split
    · simp
    · split
      · simp
      · split
        · simp
        · simp

/-- Witness for claim C4: a concrete exhausted, all-correct state at cycle 1
ends early. -/
theorem shouldAdvanceCycle_cases_witness :
    shouldAdvanceCycle
        { cycle := 1, currentCardIndex := 2,
          cycleQueue := ceilingDeck, incorrectCardIds := [],
          cycle1Answers := [("c1", true), ("c2", true)] }
        ceilingDeck
      = { shouldAdvance := false, shouldEnd := true } :=
  (shouldAdvanceCycle_cases
      { cycle := 1, currentCardIndex := 2,
        cycleQueue := ceilingDeck, incorrectCardIds := [],
        cycle1Answers := [("c1", true), ("c2", true)] }
      ceilingDeck).2.1 (by decide) rfl

/-! ### Claim C5 — `classifyCardOutcome` case analysis -/

/-- Claim C5: `classifyCardOutcome` returns `unattempted` when
`cycle1Answers` has no entry for `card.uid`; `correct-first-time` when the
entry is `true`, regardless of membership in `incorrectCardIds`; `missed`
when the entry is `false` and the uid is in `incorrectCardIds`; and
`correct-on-retry` when the entry is `false` and the uid is not. -/
theorem classifyCardOutcome_cases (card : Card) (s : SessionState) :
    (jsMapGet s.cycle1Answers card.uid = none →
      classifyCardOutcome card s = CardOutcome.unattempted) ∧
    (jsMapGet s.cycle1Answers card.uid = some true →
      classifyCardOutcome card s = CardOutcome.correctFirstTime) ∧
    (jsMapGet s.cycle1Answers card.uid = some false → card.uid ∈ s.incorrectCardIds →
      classifyCardOutcome card s = CardOutcome.missed) ∧
    (jsMapGet s.cycle1Answers card.uid = some false → card.uid ∉ s.incorrectCardIds →
      classifyCardOutcome card s = CardOutcome.correctOnRetry) := by
  unfold classifyCardOutcome
  refine ⟨?_, ?_, ?_, ?_⟩
  · intro h
    rw [h]
  · intro h
    rw [h]
  · intro h h2
    rw [h]
    simp [jsSetHas, h2]
  · intro h h2
    rw [h]
    simp [jsSetHas, h2]

/-- Witness for claim C5: a card answered incorrectly in cycle 1 and still
outstanding is classified `missed`. -/
theorem classifyCardOutcome_cases_witness :
    classifyCardOutcome { id := "c", uid := "u", front := "f", back := "b" }
        { cycle := 4, currentCardIndex := 1,
          cycleQueue := [], incorrectCardIds := ["u"],
          cycle1Answers := [("u", false)] }
      = CardOutcome.missed :=
  (classifyCardOutcome_cases { id := "c", uid := "u", front := "f", back := "b" }
      { cycle := 4, currentCardIndex := 1,
        cycleQueue := [], incorrectCardIds := ["u"],
        cycle1Answers := [("u", false)] }).2.2.1 (by decide) (by decide)

/-! ### Claim C6 — `computeScores` -/

/-- A session state whose cycle-1 map has 40 entries, 23 of them `true`:
the smallest realistic boundary input on which the JS double computation
`Math.round((23 / 40) * 100)` yields 57 while exact round-half-up of 57.5
is 58. -/
def fortyCardState : SessionState :=
  { cycle := 1, currentCardIndex := 40, cycleQueue := [],
    incorrectCardIds := [],
    cycle1Answers := (List.range 40).map (fun i => ("card" ++ toString i, decide (i < 23))) }

/-- Claim C6: `computeScores` returns `rightOnFirstTry` with total the size
of `cycle1Answers`, correct the count of `true` values, and percent the
round-half-up of `100 · correct / total` (0 when the total is 0, and under
the exact-arithmetic model of `Math.round`); and `overallScore` with the
same total and correct counting entries that are `true` or `false` with
the uid no longer in `incorrectCardIds`, its percent computed the same
way. -/
theorem computeScores_spec (s : SessionState) :
    ((computeScores s).rightOnFirstTry.total = s.cycle1Answers.length) ∧
    ((computeScores s).rightOnFirstTry.correct
      = (s.cycle1Answers.filter (fun entry => entry.2)).length) ∧
    (s.cycle1Answers.length = 0 → (computeScores s).rightOnFirstTry.percent = 0) ∧
    (s.cycle1Answers.length ≠ 0 →
      (computeScores s).rightOnFirstTry.percent
        = ⌊(100 * ((s.cycle1Answers.filter (fun entry => entry.2)).length) : ℚ)
            / (s.cycle1Answers.length : ℚ) + 1 / 2⌋₊) ∧
    ((computeScores s).overallScore.total = s.cycle1Answers.length) ∧
    ((computeScores s).overallScore.correct
      = (s.cycle1Answers.filter
          (fun entry => entry.2 || !(jsSetHas s.incorrectCardIds entry.1))).length) ∧
    (s.cycle1Answers.length = 0 → (computeScores s).overallScore.percent = 0) ∧
    (s.cycle1Answers.length ≠ 0 →
      (computeScores s).overallScore.percent
        = ⌊(100 * ((s.cycle1Answers.filter
              (fun entry => entry.2 || !(jsSetHas s.incorrectCardIds entry.1))).length) : ℚ)
            / (s.cycle1Answers.length : ℚ) + 1 / 2⌋₊) := by
  refine ⟨?_, ?_, ?_, ?_, ?_, ?_, ?_, ?_⟩
  · simp [computeScores]
  · simp [computeScores, countCorrectValues_eq]
  · intro h
    simp [computeScores, h]
  · intro h
    simp only [computeScores]
    simp only [if_neg h]
    rw [countCorrectValues_eq, mathRound100_eq_floor _ _ h]
  · simp [computeScores]
  · simp [computeScores, countEverCorrect_eq]
  · intro h
    simp [computeScores, h]
  · intro h
    simp only [computeScores]
    simp only [if_neg h]
    rw [countEverCorrect_eq, mathRound100_eq_floor _ _ h]

/-- Witness for claim C6, at the floating-point boundary input
(40 attempted, 23 correct): the exact-arithmetic model mandated by the
claim gives 58 percent. -/
theorem computeScores_spec_witness :
    (computeScores fortyCardState).rightOnFirstTry.percent
        = ⌊(100 * ((fortyCardState.cycle1Answers.filter (fun entry => entry.2)).length) : ℚ)
            / (fortyCardState.cycle1Answers.length : ℚ) + 1 / 2⌋₊ ∧
    (computeScores fortyCardState).rightOnFirstTry
        = { correct := 23, total := 40, percent := 58 } :=
  ⟨(computeScores_spec fortyCardState).2.2.2.1 (by decide), by decide⟩

/-! ### Claim C7 — `applyAnswer` effect on `incorrectCardIds` and the index -/

/-- Claim C7: `applyAnswer` removes the card from `incorrectCardIds` on a
correct answer (a no-op when absent), adds it on an incorrect answer, and
advances `currentCardIndex` by one; being a pure function of the state, it
leaves the input value untouched and never fails. -/
theorem applyAnswer_spec (s : SessionState) (cardId : String) (wasCorrect : Bool) :
    ((applyAnswer s cardId wasCorrect).currentCardIndex = s.currentCardIndex + 1) ∧
    (wasCorrect = true → cardId ∉ (applyAnswer s cardId wasCorrect).incorrectCardIds) ∧
    (wasCorrect = true → cardId ∉ s.incorrectCardIds →
      (applyAnswer s cardId wasCorrect).incorrectCardIds = s.incorrectCardIds) ∧
    (wasCorrect = false → cardId ∈ (applyAnswer s cardId wasCorrect).incorrectCardIds) := by
  refine ⟨rfl, ?_, ?_, ?_⟩
  · intro h
    subst h
    simp [applyAnswer, jsSetDelete, List.mem_filter]
  · intro h h2
    subst h
    simp only [applyAnswer, Bool.not_true, Bool.false_eq_true, if_neg]
    refine List.filter_eq_self.mpr ?_
    intro a ha
    simp only [ne_eq, decide_eq_true_eq]
    rintro rfl
    exact h2 ha
  · intro h
    subst h
    by_cases hmem : cardId ∈ s.incorrectCardIds
    · simp [applyAnswer, jsSetAdd, hmem]
    · simp [applyAnswer, jsSetAdd, hmem]

/-- Witness for claim C7: answering the first card of the two-card deck
incorrectly adds its uid and advances the index. -/
theorem applyAnswer_spec_witness :
    (applyAnswer (initSession ceilingDeck) "c1" false).currentCardIndex
        = (initSession ceilingDeck).currentCardIndex + 1 ∧
    "c1" ∈ (applyAnswer (initSession ceilingDeck) "c1" false).incorrectCardIds :=
  ⟨(applyAnswer_spec (initSession ceilingDeck) "c1" false).1,
   (applyAnswer_spec (initSession ceilingDeck) "c1" false).2.2.2 rfl⟩

/-! ### Claim C8 — `startNextCycle` frame -/

/-- Claim C8: `startNextCycle` increments the cycle, resets the index to 0,
rebuilds the queue with `buildCycleQueue` at the new cycle number, and
carries `incorrectCardIds` and `cycle1Answers` forward unchanged. -/
theorem startNextCycle_spec (s : SessionState) (allCards : List Card) :
    startNextCycle s allCards =
      { cycle := s.cycle + 1, currentCardIndex := 0,
        cycleQueue := buildCycleQueue allCards s.incorrectCardIds (s.cycle + 1),
        incorrectCardIds := s.incorrectCardIds,
        cycle1Answers := s.cycle1Answers } ∧
    (startNextCycle s allCards).incorrectCardIds = s.incorrectCardIds ∧
    (startNextCycle s allCards).cycle1Answers = s.cycle1Answers :=
  ⟨rfl, rfl, rfl⟩

/-! ### Claim C9 — `initSession` initial state -/

/-- Claim C9: for every deck (possibly empty), the initial session state has
cycle 1, index 0, empty `incorrectCardIds` and `cycle1Answers`, and a
cycle queue equal to the deck's cards in order, of the deck's length.
(The `maxCycles` bound `M` of the claim is quantified here but unused: the
source `initSession` accepts only the card list and ignores the
`maxCycles` its callers pass.) -/
theorem initSession_spec (D : List Card) (M : Nat) (_hM : 1 ≤ M) :
    initSession D =
      { cycle := 1, currentCardIndex := 0, cycleQueue := D,
        incorrectCardIds := [], cycle1Answers := [] } ∧
    (initSession D).cycleQueue.length = D.length := by
  constructor
  · simp [initSession, buildCycleQueue]
  · simp [initSession, buildCycleQueue]

/-- Witness for claim C9 on the empty deck with `maxCycles = 1`. -/
theorem initSession_spec_witness :
    initSession ([] : List Card) =
      { cycle := 1, currentCardIndex := 0, cycleQueue := [],
        incorrectCardIds := [], cycle1Answers := [] } ∧
    (initSession ([] : List Card)).cycleQueue.length = ([] : List Card).length :=
  initSession_spec [] 1 (by decide)

/-! ### Claim C10 — the two cycle-1 score implementations agree -/

/-- Claim C10: `calculateCycle1Score` in `session.ts` and the
`rightOnFirstTry` component of `computeScores` in `sessionStats.ts`
return the same `{correct, total, percent}` triple on every state. -/
theorem calculateCycle1Score_eq_computeScores (s : SessionState) :
    calculateCycle1Score s = (computeScores s).rightOnFirstTry := by
  by_cases h : s.cycle1Answers.length = 0
  · have h0 : s.cycle1Answers = [] := List.length_eq_zero.mp h
    simp [calculateCycle1Score, computeScores, h0, countCorrectValues]
  · simp [calculateCycle1Score, computeScores, h]
